import Mathlib

/-
Verification development for the helm-deploy action (src/index.js).

The JavaScript source is shallowly embedded: each function of the source
becomes a Lean definition over an explicit model of the JavaScript values
it manipulates.  External collaborators (the GitHub API client, the
filesystem, JSON.parse, the Mustache template engine) are modelled
explicitly where a claim depends on their behaviour.
-/

/-- Model of the JavaScript values that flow through the action: strings,
numbers (modelled as integers; the claims never exercise fractional
values), booleans, null and arrays. -/
inductive JsVal where
  | null : JsVal
  | bool (b : Bool) : JsVal
  | num (n : Int) : JsVal
  | str (s : String) : JsVal
  | arr (l : List JsVal) : JsVal

/-- JavaScript truthiness of a value: null, false, 0 and the empty string
are falsy; every array (even empty) is truthy. -/
def jsTruthy : JsVal → Bool
  | JsVal.null => false
  | JsVal.bool b => b
  | JsVal.num n => decide (n ≠ 0)
  | JsVal.str s => decide (s ≠ "")
  | JsVal.arr _ => true

/-- Truthiness of a possibly-undefined value (undefined is falsy). -/
def jsTruthyOpt : Option JsVal → Bool
  | none => false
  | some v => jsTruthy v

/-- Errors thrown by the embedded code. `typeError` models the JavaScript
TypeError raised when dereferencing a property of undefined;
`inputRequired` models the `Input required and not supplied` error of
getInput; `apiFailure` models a rejected GitHub API call. -/
inductive JsError where
  | typeError : JsError
  | inputRequired (name : String) : JsError
  | apiFailure (msg : String) : JsError
deriving DecidableEq, Repr

/-- Message carried by an error, as produced by the source's
`error.message`. -/
def JsError.message : JsError → String
  | JsError.typeError => "Cannot read properties of undefined"
  | JsError.inputRequired n => "Input required and not supplied: " ++ n
  | JsError.apiFailure m => m

/-- The inbound deployment event (`github.context.payload.deployment`):
arbitrary top-level fields, plus an optional nested `payload` object with
its own fields.  `none` for a field means the field is not defined. -/
structure DeploymentEvent where
  fields : String → Option JsVal
  payload : Option (String → Option JsVal)

/-- JavaScript `name.replace('-', '_')`: replaces only the first
occurrence of the dash. -/
def replaceFirstDash : List Char → List Char
  | [] => []
  | c :: cs => if c = '-' then '_' :: cs else c :: replaceFirstDash cs

/-- Embedding of `getInput` (src/index.js lines 103-125).  `inputs`
models `core.getInput` (always yielding a string, empty when the input is
not set); `dep` models `context.payload.deployment`.  The source reads
`deployment.payload[name]` without guarding `deployment.payload`, so a
deployment without a payload object raises a TypeError. -/
def getInput (inputs : String → String) (dep : Option DeploymentEvent)
    (name : String) (req : Bool) : Except JsError JsVal :=
  let raw := inputs name
  let raw2 := if raw.length = 0 ∧ name.data.contains '-'
    then inputs (String.mk (replaceFirstDash name.data)) else raw
  let v1 : JsVal := JsVal.str raw2
  match dep with
  | none => if req && !(jsTruthy v1) then Except.error (JsError.inputRequired name)
            else Except.ok v1
  | some d =>
    let v2 := match d.fields name with
      | some w => if jsTruthy w then w else v1
      | none => v1
    match d.payload with
    | none => Except.error JsError.typeError
    | some p =>
      let v3 := match p name with
        | some w => if jsTruthy w then w else v2
        | none => v2
      if req && !(jsTruthy v3) then Except.error (JsError.inputRequired name)
      else Except.ok v3

/-- Embedding of `releaseName` (src/index.js lines 50-55). -/
def releaseName (name track : String) : String :=
  if track ≠ "stable" then name ++ "-" ++ track else name

/-- Embedding of `chartName` (src/index.js lines 57-62). -/
def chartName (name : String) : String :=
  if name = "app" then "/usr/src/charts/app" else name

/-- A user entry of the kubeconfig document: a name together with its
auth material, of which the claims only inspect the bearer token
(`user.token`); `none` models a user entry without a token field. -/
structure UserEntry where
  name : String
  token : Option String
deriving DecidableEq, Repr

/-- A context entry of the kubeconfig document (`contexts[i]`): its name
and the fields of its nested `context` object that the source touches or
preserves. -/
structure ContextEntry where
  name : String
  cluster : String
  user : String
deriving DecidableEq, Repr

/-- The parsed kubeconfig document.  `none` for `users` or `contexts`
models the key being absent (or null) in the YAML document, which is
falsy in JavaScript; `some []` models a present-but-empty list, which is
truthy. -/
structure KubeConfig where
  users : Option (List UserEntry)
  contexts : Option (List ContextEntry)
deriving DecidableEq, Repr

/-- Errors of the kubeconfig rewriter.  `noContextsDefined` models the
`Cannot find contexts in the kubeconfig file` error. -/
inductive KubeError where
  | noContextsDefined : KubeError
deriving DecidableEq, Repr

/-- Embedding of the document transformation performed by
`addTokenToKubeConfig` (src/index.js lines 173-212), after the file has
been read and parsed (path defaulting, existence checking and YAML
parsing are filesystem collaborators outside this model).  An
`Except.error` result means the function throws before the rewritten file
is written; an `Except.ok` result is the document serialized to the
derived credential file. -/
def addTokenToKubeConfig (cfg : KubeConfig) (kubeToken : String) :
    Except KubeError KubeConfig :=
  let userName := "helm-deploy-action-token-user"
  let users0 := match cfg.users with
    | none => []
    | some us => us
  let users1 := users0 ++ [{ name := userName, token := some kubeToken }]
  match cfg.contexts with
  | none => Except.error KubeError.noContextsDefined
  | some cs =>
    Except.ok { users := some users1,
                contexts := some (cs.map fun c => { c with user := userName }) }

/-- Configured inputs used by the concrete test documents below: the
`track` input is configured to the string "configured". -/
def cfgInputs : String → String := fun n => if n = "track" then "configured" else ""

/-- A nested payload object defining no fields. -/
def payloadEmpty : String → Option JsVal := fun _ => none

/-- A nested payload object defining `track` as the empty string. -/
def payloadFalsyTrack : String → Option JsVal :=
  fun n => if n = "track" then some (JsVal.str "") else none

/-- A nested payload object defining `track` as "canary". -/
def payloadCanaryTrack : String → Option JsVal :=
  fun n => if n = "track" then some (JsVal.str "canary") else none

/-- Deployment event defining `track` as the empty string at top level,
with an empty nested payload. -/
def depFalsyTop : DeploymentEvent :=
  { fields := fun n => if n = "track" then some (JsVal.str "") else none,
    payload := some payloadEmpty }

/-- Deployment event defining `track` as "canary" at top level, with an
empty nested payload. -/
def depTruthyTop : DeploymentEvent :=
  { fields := fun n => if n = "track" then some (JsVal.str "canary") else none,
    payload := some payloadEmpty }

/-- Deployment event defining `track` as "top" at top level and as the
empty string in the nested payload. -/
def depNestedFalsy : DeploymentEvent :=
  { fields := fun n => if n = "track" then some (JsVal.str "top") else none,
    payload := some payloadFalsyTrack }

/-- Deployment event defining `track` as "top" at top level and as
"canary" in the nested payload. -/
def depNestedTruthy : DeploymentEvent :=
  { fields := fun n => if n = "track" then some (JsVal.str "top") else none,
    payload := some payloadCanaryTrack }

/-- Deployment event carrying no nested payload object at all. -/
def depNoPayload : DeploymentEvent :=
  { fields := fun _ => none, payload := none }

/-- A kubeconfig document whose `contexts` key is present but holds an
empty list. -/
def emptyContextsCfg : KubeConfig := { users := none, contexts := some [] }

/-- Observable outcome of a `status` call: skipped (no token or no
deployment event), reported to the API, or a warning logged after a
caught failure. -/
inductive StatusResult where
  | skipped : StatusResult
  | reported (state : String) : StatusResult
  | warned (msg : String) : StatusResult
deriving DecidableEq, Repr

/-- Body of `status` (src/index.js lines 22-48) inside the try block:
returns early when no token is configured or no deployment event is
present; otherwise the API call (`client.repos.createDeploymentStatus`,
an external collaborator whose outcome is the `api` argument) either
succeeds or throws. -/
def statusTry (token : String) (dep : Option DeploymentEvent)
    (api : Except JsError Unit) (state : String) : Except JsError StatusResult :=
  if token = "" || dep.isNone then Except.ok StatusResult.skipped
  else
    match api with
    | Except.ok _ => Except.ok (StatusResult.reported state)
    | Except.error e => Except.error e

/-- Embedding of `status` (src/index.js lines 22-48): the whole body is
wrapped in try/catch, and the catch logs a warning with the error's
message and returns normally, so the function always returns an outcome
and never propagates an error. -/
def status (token : String) (dep : Option DeploymentEvent)
    (api : Except JsError Unit) (state : String) : StatusResult :=
  match statusTry token dep api state with
  | Except.ok r => r
  | Except.error e => StatusResult.warned e.message

/-- JSON whitespace. -/
def jsWs (c : Char) : Bool := c = ' ' || c = '\n' || c = '\t' || c = '\r'

/-- Drop leading JSON whitespace. -/
def skipWs : List Char → List Char
  | [] => []
  | c :: cs => if jsWs c then skipWs cs else c :: cs

/-- Parse the body of a JSON string literal (the opening quote already
consumed), handling the common escapes; unsupported escapes are treated
as a parse failure of the modelled fragment. -/
def parseStringChars : Nat → List Char → Option (List Char × List Char)
  | 0, _ => none
  | _ + 1, [] => none
  | fuel + 1, c :: cs =>
    if c = '"' then some ([], cs)
    else if c = '\\' then
      match cs with
      | [] => none
      | e :: rest =>
        let dec : Option Char :=
          if e = '"' then some '"'
          else if e = '\\' then some '\\'
          else if e = '/' then some '/'
          else if e = 'n' then some '\n'
          else if e = 't' then some '\t'
          else if e = 'r' then some '\r'
          else none
        match dec with
        | none => none
        | some d => (parseStringChars fuel rest).map fun pr => (d :: pr.1, pr.2)
    else (parseStringChars fuel cs).map fun pr => (c :: pr.1, pr.2)

/-- Numeric value of a list of decimal digits. -/
def natOfDigits : List Char → Nat
  | [] => 0
  | ds => ds.foldl (fun a c => a * 10 + (c.toNat - '0'.toNat)) 0

/-- Intermediate result of the JSON parser: a single value or a list of
array items. -/
inductive PRes where
  | v (x : JsVal) : PRes
  | items (xs : List JsVal) : PRes

/-- Fuel-indexed recursive-descent parser modelling `JSON.parse` over the
JSON fragment the action's inputs exercise: strings, integers, booleans,
null and (nested) arrays.  The mode argument selects between parsing one
value (`true`) and parsing the comma-separated items of an array up to
its closing bracket (`false`).  Inputs outside the fragment (objects,
fractional or exponent numbers, unicode escapes) are treated as parse
failures. -/
def parseF : Nat → Bool → List Char → Option (PRes × List Char)
  | 0, _, _ => none
  | fuel + 1, true, cs0 =>
    match skipWs cs0 with
    | [] => none
    | c :: cs =>
      if c = '"' then
        (parseStringChars (cs.length + 1) cs).map fun pr =>
          (PRes.v (JsVal.str (String.mk pr.1)), pr.2)
      else if c = '[' then
        match skipWs cs with
        | ']' :: rest => some (PRes.v (JsVal.arr []), rest)
        | cs2 =>
          match parseF fuel false cs2 with
          | some (PRes.items xs, rest) => some (PRes.v (JsVal.arr xs), rest)
          | _ => none
      else if c = 't' then
        match cs with
        | 'r' :: 'u' :: 'e' :: rest => some (PRes.v (JsVal.bool true), rest)
        | _ => none
      else if c = 'f' then
        match cs with
        | 'a' :: 'l' :: 's' :: 'e' :: rest => some (PRes.v (JsVal.bool false), rest)
        | _ => none
      else if c = 'n' then
        match cs with
        | 'u' :: 'l' :: 'l' :: rest => some (PRes.v JsVal.null, rest)
        | _ => none
      else if c = '-' then
        match cs.takeWhile Char.isDigit with
        | [] => none
        | ds => some (PRes.v (JsVal.num (-(natOfDigits ds : Int))),
                      cs.dropWhile Char.isDigit)
      else if c.isDigit then
        some (PRes.v (JsVal.num (natOfDigits ((c :: cs).takeWhile Char.isDigit))),
              (c :: cs).dropWhile Char.isDigit)
      else none
  | fuel + 1, false, cs =>
    match parseF fuel true cs with
    | some (PRes.v x, rest) =>
      (match skipWs rest with
      | [] => none
      | c :: rest2 =>
        if c = ',' then
          match parseF fuel false rest2 with
          | some (PRes.items xs, r2) => some (PRes.items (x :: xs), r2)
          | _ => none
        else if c = ']' then some (PRes.items [x], rest2)
        else none)
    | _ => none

/-- Model of `JSON.parse` on a whole string: the parsed value when the
entire input (up to trailing whitespace) is consumed, `none` when parsing
throws. -/
def jsonParse (s : String) : Option JsVal :=
  match parseF (2 * s.length + 2) true s.data with
  | some (PRes.v v, rest) => if (skipWs rest).isEmpty then some v else none
  | _ => none

/-- Embedding of `getValueFiles` (src/index.js lines 85-101): a string
input is given to `JSON.parse`, falling back to a single-entry list on
parse failure; a non-array result yields the empty list; finally falsy
entries are filtered out. -/
def getValueFiles (files : JsVal) : List JsVal :=
  let fileList : JsVal :=
    match files with
    | JsVal.str s =>
      match jsonParse s with
      | some v => v
      | none => JsVal.arr [JsVal.str s]
    | v => v
  match fileList with
  | JsVal.arr l => l.filter fun f => jsTruthy f
  | _ => []

/-- The characters of the custom delimiter pair passed to
`Mustache.render` by `renderFiles` (tags open with a dollar sign and two
opening braces, and close with two closing braces). -/
def dolChar : Char := '$'

/-- Opening brace character of the delimiters. -/
def obrChar : Char := '\x7b'

/-- Closing brace character of the delimiters. -/
def cbrChar : Char := '\x7d'

/-- Whether an opening delimiter starts at this position (current
character plus the next two). -/
def openAt (c : Char) (cs : List Char) : Bool :=
  c = dolChar && cs.head? = some obrChar && cs.tail.head? = some obrChar

/-- Whether the text contains an opening delimiter anywhere. -/
def hasOpen : List Char → Bool
  | [] => false
  | c :: cs => openAt c cs || hasOpen cs

/-- Split a tag at the first closing delimiter: the tag content and the
remainder after the two closing braces; `none` when the tag is never
closed (Mustache throws an unclosed-tag error there). -/
def splitTag : List Char → Option (List Char × List Char)
  | [] => none
  | c :: cs =>
    if c = cbrChar then
      match cs with
      | [] => none
      | c2 :: rest =>
        if c2 = cbrChar then some ([], rest)
        else (splitTag cs).map fun pr => (c :: pr.1, pr.2)
    else (splitTag cs).map fun pr => (c :: pr.1, pr.2)

/-- Mustache whitespace trimming around a tag name. -/
def isTagWs (c : Char) : Bool := c = ' ' || c = '\t' || c = '\n' || c = '\r'

/-- Trim whitespace from both ends of a character list. -/
def trimChars (cs : List Char) : List Char :=
  ((cs.dropWhile isTagWs).reverse.dropWhile isTagWs).reverse

/-- Value substituted for a tag: the context value of the trimmed tag
name, or empty text when the name is not defined (Mustache inserts
nothing for missing keys). -/
def lookupVal (lk : String → Option String) (tag : List Char) : List Char :=
  ((lk (String.mk (trimChars tag))).getD "").data

/-- Fuel-indexed scanner modelling `Mustache.render` with the custom
delimiters over the fragment the value files exercise: plain
interpolation tags whose looked-up value is spliced into the output
(the `lk` context abstracts dotted-name resolution over the
`secrets`/`deployment` data; HTML escaping is not modelled — the
counterexample and theorems below do not depend on it).  `none` models a
thrown render error (unclosed tag). -/
def renderT (lk : String → Option String) : Nat → List Char → Option (List Char)
  | 0, _ => none
  | _ + 1, [] => some []
  | fuel + 1, c :: cs =>
    if openAt c cs then
      match splitTag cs.tail.tail with
      | none => none
      | some (tag, rest) =>
        (renderT lk fuel rest).map fun r => lookupVal lk tag ++ r
    else
      (renderT lk fuel cs).map fun r => c :: r

/-- Rendering one value file's content (`Mustache.render(content, data,
..., tags)` in `renderFiles`, src/index.js lines 132-143). -/
def mustacheRender (lk : String → Option String) (s : String) : Option String :=
  (renderT lk (s.data.length + 1) s.data).map String.mk

/-- Embedding of `renderFiles`: each (path, content) pair is read,
rendered with the shared context, and written back in place; a failing
render fails the whole operation. -/
def renderFiles (lk : String → Option String) (files : List (String × String)) :
    Option (List (String × String)) :=
  files.mapM fun pr => (mustacheRender lk pr.2).map fun out => (pr.1, out)

/-- Template consisting of one tag naming `a`. -/
def tplTagA : String := String.mk [dolChar, obrChar, obrChar, 'a', cbrChar, cbrChar]

/-- Template consisting of one tag naming `b`. -/
def tplTagB : String := String.mk [dolChar, obrChar, obrChar, 'b', cbrChar, cbrChar]

/-- A context in which `a` expands to the text of a `b` tag, and `b`
expands to "X" — the kind of context produced when a secret's value
itself contains the template delimiters. -/
def lkChain : String → Option String :=
  fun n => if n = "a" then some tplTagB else if n = "b" then some "X" else none

/-- A context mapping `a` to "hello". -/
def lkHello : String → Option String :=
  fun n => if n = "a" then some "hello" else none

/-- Template "x", tag for `a`, then "y". -/
def tplXAY : String :=
  String.mk ('x' :: dolChar :: obrChar :: obrChar :: 'a' :: cbrChar :: cbrChar :: ['y'])

/-- The resolved deployment parameters consumed by the command
synthesis inside `run` (src/index.js lines 268-322).  `nspace` is the
`namespace` input (a reserved word in Lean). -/
structure DeployParams where
  release : String
  chart : String
  nspace : String
  appName : String
  version : String
  chartVersion : String
  timeout : String
  dryRun : String
  valueFiles : List String
  track : String
  kubeContext : String
  kubeToken : String
  helm : String

/-- Embedding of the helm upgrade argument construction in `run`
(src/index.js lines 268-322): the base tokens, then each conditional
push in source order, the value-file flags, the always-present default
values flag, the canary service/ingress flags, and the kube-context and
kube-token flags. -/
def upgradeArgs (p : DeployParams) : List String :=
  let args := ["upgrade", p.release, p.chart, "--install", "--wait", "--atomic",
    "--namespace=" ++ p.nspace]
  let args := if p.dryRun ≠ "" then args ++ ["--dry-run"] else args
  let args := if p.appName ≠ "" then args ++ ["--set=app.name=" ++ p.appName] else args
  let args := if p.version ≠ "" then args ++ ["--set=app.version=" ++ p.version] else args
  let args := if p.chartVersion ≠ "" then args ++ ["--version=" ++ p.chartVersion] else args
  let args := if p.timeout ≠ "" then args ++ ["--timeout=" ++ p.timeout] else args
  let args := args ++ (p.valueFiles.map fun f => "--values=" ++ f)
  let args := args ++ ["--values=./values.yml"]
  let args := if p.track = "canary" then
    args ++ ["--set=service.enabled=false", "--set=ingress.enabled=false"] else args
  let args := if p.kubeContext ≠ "" then args ++ ["--kube-context=" ++ p.kubeContext] else args
  let args := if p.kubeToken ≠ "" ∧ p.helm = "helm3" then
    args ++ ["--kube-token=" ++ p.kubeToken] else args
  args

/-- Embedding of `deleteCmd` (src/index.js lines 152-157). -/
def deleteCmd (helm nspace release : String) : List String :=
  if helm = "helm3" then ["delete", "-n", nspace, release]
  else ["delete", "--purge", release]

/-- Concrete parameters of a canary deployment. -/
def canaryParams : DeployParams :=
  { release := "api-canary", chart := "/usr/src/charts/app", nspace := "prod",
    appName := "api", version := "", chartVersion := "", timeout := "",
    dryRun := "", valueFiles := ["a.yml"], track := "canary",
    kubeContext := "", kubeToken := "", helm := "helm" }

/-- Parameters of a stable-track deployment whose release and chart
names are (degenerately) the two canary flag strings themselves. -/
def collidingParams : DeployParams :=
  { release := "--set=service.enabled=false", chart := "--set=ingress.enabled=false",
    nspace := "prod", appName := "api", version := "", chartVersion := "",
    timeout := "", dryRun := "", valueFiles := [], track := "stable",
    kubeContext := "", kubeToken := "", helm := "helm" }

/-- Claim C5: for every application name and track, the release name is
the name with a dash and the track appended when the track is not
"stable", and the name unchanged when the track is "stable". -/
theorem releaseName_spec (name track : String) :
    (track ≠ "stable" → releaseName name track = name ++ "-" ++ track) ∧
    (track = "stable" → releaseName name track = name) := by
  constructor <;> intro h <;> simp [releaseName, h]

theorem releaseName_spec_witness :
    releaseName "api" "canary" = "api" ++ "-" ++ "canary" ∧
    releaseName "api" "stable" = "api" :=
  ⟨(releaseName_spec "api" "canary").1 (by decide),
   (releaseName_spec "api" "stable").2 rfl⟩

/-- Claim C1 (amended): an event-override value takes precedence over the
configured-input and environment value only when it is truthy: if the
nested payload defines the field with a truthy value, or the nested
payload does not supply a truthy value and the top level defines the
field with a truthy value, resolution yields the event value.  A
defined-but-falsy event value (such as the empty string) is skipped by
the source's truthiness guards. -/
theorem getInput_event_truthy (inputs : String → String) (d : DeploymentEvent)
    (name : String) (req : Bool) (p : String → Option JsVal) (v : JsVal)
    (hp : d.payload = some p)
    (h : (p name = some v ∧ jsTruthy v = true) ∨
         (jsTruthyOpt (p name) = false ∧ d.fields name = some v ∧ jsTruthy v = true)) :
    getInput inputs (some d) name req = Except.ok v := by
  rcases h with ⟨h1, h2⟩ | ⟨h0, h1, h2⟩
  · simp [getInput, hp, h1, h2]
  · cases hw : p name with
    | none => simp [getInput, hp, hw, h1, h2]
    | some w =>
      have hwf : jsTruthy w = false := by
        rw [hw] at h0
        exact h0
      simp [getInput, hp, hw, hwf, h1, h2]

theorem getInput_event_truthy_witness :
    getInput cfgInputs (some depTruthyTop) "track" false = Except.ok (JsVal.str "canary") :=
  getInput_event_truthy cfgInputs depTruthyTop "track" false payloadEmpty
    (JsVal.str "canary") rfl (Or.inr ⟨rfl, rfl, rfl⟩)

/-- Claim C1 (counterexample): the inbound event defines `track` as the
empty string (a defined but falsy value), the configured input is
"configured", and resolution yields the configured value, not the
event's value — so a falsy-but-defined event value does not take
precedence. -/
theorem getInput_falsy_override_cex :
    depFalsyTop.fields "track" = some (JsVal.str "") ∧
    getInput cfgInputs (some depFalsyTop) "track" false = Except.ok (JsVal.str "configured") ∧
    JsVal.str "configured" ≠ JsVal.str "" := by
  refine ⟨rfl, rfl, ?_⟩
  simp

/-- Claim C4 (amended): when the nested payload defines a field with a
truthy value, that value takes final precedence over any top-level
override. -/
theorem getInput_nested_truthy (inputs : String → String) (d : DeploymentEvent)
    (name : String) (req : Bool) (p : String → Option JsVal) (v : JsVal)
    (hp : d.payload = some p) (hv : p name = some v) (ht : jsTruthy v = true) :
    getInput inputs (some d) name req = Except.ok v := by
  simp [getInput, hp, hv, ht]

theorem getInput_nested_truthy_witness :
    getInput cfgInputs (some depNestedTruthy) "track" false = Except.ok (JsVal.str "canary") :=
  getInput_nested_truthy cfgInputs depNestedTruthy "track" false payloadCanaryTrack
    (JsVal.str "canary") rfl rfl rfl

/-- Claim C4 (counterexample): `track` is defined as "top" at top level
and as the empty string in the nested payload; resolution yields the
top-level value, not the nested one — the nested value wins only when it
is truthy. -/
theorem getInput_nested_falsy_cex :
    payloadFalsyTrack "track" = some (JsVal.str "") ∧
    depNestedFalsy.payload = some payloadFalsyTrack ∧
    getInput cfgInputs (some depNestedFalsy) "track" false = Except.ok (JsVal.str "top") ∧
    JsVal.str "top" ≠ JsVal.str "" := by
  refine ⟨rfl, rfl, rfl, ?_⟩
  simp

/-- Claim C10: when a deployment event is present but carries no nested
payload object, `getInput` dereferences the absent payload unguarded and
throws a TypeError for every field name — even a field supplied by the
configured inputs. -/
theorem getInput_missing_payload (inputs : String → String) (d : DeploymentEvent)
    (name : String) (req : Bool) (h : d.payload = none) :
    getInput inputs (some d) name req = Except.error JsError.typeError := by
  simp [getInput, h]

theorem getInput_missing_payload_witness :
    getInput cfgInputs (some depNoPayload) "track" false = Except.error JsError.typeError :=
  getInput_missing_payload cfgInputs depNoPayload "track" false rfl

/-- Claim C2 (amended): token injection fails with NoContextsDefined
exactly when the `contexts` key is absent from the document (and then no
derived document is produced); a present-but-empty contexts list is
truthy in JavaScript and does not trigger the error. -/
theorem addTokenToKubeConfig_no_contexts (cfg : KubeConfig) (tok : String)
    (h : cfg.contexts = none) :
    addTokenToKubeConfig cfg tok = Except.error KubeError.noContextsDefined := by
  simp [addTokenToKubeConfig, h]

theorem addTokenToKubeConfig_no_contexts_witness :
    addTokenToKubeConfig { users := none, contexts := none } "tok" =
      Except.error KubeError.noContextsDefined :=
  addTokenToKubeConfig_no_contexts { users := none, contexts := none } "tok" rfl

/-- Claim C2 (counterexample): a document whose set of contexts is empty
because the `contexts` key holds an empty list does not fail with
NoContextsDefined; injection succeeds and produces a derived document. -/
theorem addTokenToKubeConfig_empty_contexts_cex :
    addTokenToKubeConfig emptyContextsCfg "tok" =
      Except.ok { users := some [{ name := "helm-deploy-action-token-user",
                                   token := some "tok" }],
                  contexts := some [] } ∧
    addTokenToKubeConfig emptyContextsCfg "tok" ≠
      Except.error KubeError.noContextsDefined := by
  refine ⟨rfl, ?_⟩
  simp [addTokenToKubeConfig, emptyContextsCfg]

/-- Claim C3: injecting a token into a document with N contexts (N ≥ 1)
and no prior users (key absent or empty list) succeeds; the result has
exactly N contexts, every context references the injected identity, and
exactly one user exists whose bearer token is the supplied token. -/
theorem addTokenToKubeConfig_fresh (cfg : KubeConfig) (tok : String)
    (cs : List ContextEntry) (hc : cfg.contexts = some cs) (hn : 0 < cs.length)
    (hu : cfg.users = none ∨ cfg.users = some []) :
    ∃ out, addTokenToKubeConfig cfg tok = Except.ok out ∧
      (∃ cs2, out.contexts = some cs2 ∧ cs2.length = cs.length ∧
        ∀ c ∈ cs2, c.user = "helm-deploy-action-token-user") ∧
      out.users = some [{ name := "helm-deploy-action-token-user", token := some tok }] := by
  have key : addTokenToKubeConfig cfg tok = Except.ok
      { users := some [{ name := "helm-deploy-action-token-user", token := some tok }],
        contexts := some (cs.map fun c => { c with user := "helm-deploy-action-token-user" }) } := by
    rcases hu with h | h <;> simp [addTokenToKubeConfig, hc, h]
  refine ⟨_, key, ⟨cs.map fun c => { c with user := "helm-deploy-action-token-user" },
    rfl, by simp, ?_⟩, rfl⟩
  intro c hcmem
  rcases List.mem_map.mp hcmem with ⟨a, _, ha⟩
  rw [← ha]

theorem addTokenToKubeConfig_fresh_witness :
    ∃ out, addTokenToKubeConfig
        { users := none,
          contexts := some [{ name := "c1", cluster := "k", user := "old" }] } "tok" =
        Except.ok out ∧
      (∃ cs2, out.contexts = some cs2 ∧
        cs2.length = [({ name := "c1", cluster := "k", user := "old" } : ContextEntry)].length ∧
        ∀ c ∈ cs2, c.user = "helm-deploy-action-token-user") ∧
      out.users = some [{ name := "helm-deploy-action-token-user", token := some "tok" }] :=
  addTokenToKubeConfig_fresh
    { users := none, contexts := some [{ name := "c1", cluster := "k", user := "old" }] }
    "tok" [{ name := "c1", cluster := "k", user := "old" }] rfl (by decide) (Or.inl rfl)

/-- Claim C9: status reporting never fails the run.  For every lifecycle
state: when no tracking token is configured or no inbound deployment
event is present the report is a skipped no-op; when configured, an API
failure is caught and surfaces only as a logged warning; and in every
case the call returns one of the three normal outcomes (it never
raises), so it cannot alter the run's success or failure. -/
theorem status_never_fails (token : String) (dep : Option DeploymentEvent)
    (api : Except JsError Unit) (state : String) :
    (token = "" ∨ dep.isNone = true → status token dep api state = StatusResult.skipped) ∧
    (∀ e, token ≠ "" → dep.isNone = false → api = Except.error e →
      status token dep api state = StatusResult.warned e.message) ∧
    (status token dep api state = StatusResult.skipped ∨
      status token dep api state = StatusResult.reported state ∨
      ∃ m, status token dep api state = StatusResult.warned m) := by
  refine ⟨?_, ?_, ?_⟩
  · intro h
    rcases h with h | h <;> simp [status, statusTry, h]
  · intro e h1 h2 h3
    simp [status, statusTry, h1, h2, h3]
  · by_cases h1 : token = ""
    · exact Or.inl ((by simp [status, statusTry, h1] : _))
    · by_cases h2 : dep.isNone
      · exact Or.inl (by simp [status, statusTry, h2])
      · cases api with
        | ok u => exact Or.inr (Or.inl (by simp [status, statusTry, h1, h2]))
        | error e =>
          exact Or.inr (Or.inr ⟨e.message, by simp [status, statusTry, h1, h2]⟩)

theorem status_never_fails_witness :
    status "ghtoken" (some depTruthyTop) (Except.error (JsError.apiFailure "unreachable"))
      "pending" = StatusResult.warned "unreachable" :=
  (status_never_fails "ghtoken" (some depTruthyTop)
    (Except.error (JsError.apiFailure "unreachable")) "pending").2.1
    (JsError.apiFailure "unreachable") (by simp) rfl rfl

/-- Claim C7: value-file list resolution.  A textual input that parses as
an array yields that array's entries in order; a textual input that fails
the structural parse yields the single-entry list holding the whole
string; a structural list passes through; and in every case falsy/empty
entries are dropped (the result is a sublist of truthy entries, order
preserved).  The two spec examples evaluate as stated. -/
theorem getValueFiles_spec :
    (∀ s l, jsonParse s = some (JsVal.arr l) →
      getValueFiles (JsVal.str s) = l.filter fun f => jsTruthy f) ∧
    (∀ s, jsonParse s = none →
      getValueFiles (JsVal.str s) = [JsVal.str s].filter fun f => jsTruthy f) ∧
    (∀ l, getValueFiles (JsVal.arr l) = l.filter fun f => jsTruthy f) ∧
    (∀ l, List.Sublist (getValueFiles (JsVal.arr l)) l ∧
      ∀ f ∈ getValueFiles (JsVal.arr l), jsTruthy f = true) ∧
    getValueFiles (JsVal.str "[\"a.yml\",\"b.yml\"]") =
      [JsVal.str "a.yml", JsVal.str "b.yml"] ∧
    getValueFiles (JsVal.str "c.yml") = [JsVal.str "c.yml"] := by
  refine ⟨?_, ?_, ?_, ?_, rfl, rfl⟩
  · intro s l h
    simp [getValueFiles, h]
  · intro s h
    simp [getValueFiles, h]
  · intro l
    rfl
  · intro l
    refine ⟨?_, fun f hf => ?_⟩
    · simpa [getValueFiles] using List.filter_sublist l
    · have hm : f ∈ l.filter fun f => jsTruthy f := hf
      exact (List.mem_filter.mp hm).2

theorem getValueFiles_spec_witness :
    getValueFiles (JsVal.str "[1,0]") =
      ([JsVal.num 1, JsVal.num 0].filter fun f => jsTruthy f) ∧
    getValueFiles (JsVal.str "c.yml") =
      ([JsVal.str "c.yml"].filter fun f => jsTruthy f) :=
  ⟨getValueFiles_spec.1 "[1,0]" [JsVal.num 1, JsVal.num 0] rfl,
   getValueFiles_spec.2.1 "c.yml" rfl⟩

/-- Text without an opening delimiter renders to itself (helper for the
idempotency theorem). -/
theorem renderT_noOpen (lk : String → Option String) :
    ∀ (cs : List Char) (fuel : Nat), hasOpen cs = false → cs.length < fuel →
      renderT lk fuel cs = some cs := by
  intro cs
  induction cs with
  | nil =>
    intro fuel h hf
    cases fuel with
    | zero => exact absurd hf (by simp)
    | succ n => rfl
  | cons c cs ih =>
    intro fuel h hf
    cases fuel with
    | zero => exact absurd hf (by simp)
    | succ n =>
      have h2 : openAt c cs = false ∧ hasOpen cs = false := by
        simpa [hasOpen, Bool.or_eq_false_iff] using h
      have hlen : cs.length < n := by
        simpa [Nat.succ_lt_succ_iff] using hf
      simp [renderT, h2.1, ih n h2.2 hlen]

/-- Claim C8 (amended): re-rendering a rendered value file with the same
context is byte-identical provided the first render's output contains no
opening template delimiter; when a substituted value itself contains the
delimiters, the second render expands it again. -/
theorem mustacheRender_idem (lk : String → Option String) (s out : String)
    (h1 : mustacheRender lk s = some out) (h2 : hasOpen out.data = false) :
    mustacheRender lk out = some out := by
  obtain ⟨cs⟩ := out
  unfold mustacheRender
  rw [renderT_noOpen lk (String.mk cs).data ((String.mk cs).data.length + 1) h2
    (Nat.lt_succ_self _)]
  rfl

theorem mustacheRender_idem_witness :
    mustacheRender lkHello "xhelloy" = some "xhelloy" :=
  mustacheRender_idem lkHello tplXAY "xhelloy" rfl rfl

/-- Claim C8 (counterexample): with a context in which the value of `a`
is itself a `b` tag, the first render of a file holding an `a` tag
produces the `b` tag text, and the second render with the unchanged
context produces "X" — not byte-identical to the first output. -/
theorem mustacheRender_not_idem_cex :
    mustacheRender lkChain tplTagA = some tplTagB ∧
    mustacheRender lkChain tplTagB = some "X" ∧
    tplTagB ≠ "X" := by
  refine ⟨rfl, rfl, ?_⟩
  decide

/-- Membership in a conditional push: the element is in the list being
extended, or the condition held and the element is in the pushed part. -/
theorem mem_if_push {c : Prop} [Decidable c] {x : String} (l y : List String) :
    x ∈ (if c then l ++ y else l) ↔ x ∈ l ∨ (c ∧ x ∈ y) := by
  split <;> simp_all

/-- A string with prefix `a` cannot equal `t` when `t` does not start
with `a`. -/
theorem append_take_ne (a b t : String) (h : t.data.take a.data.length ≠ a.data) :
    a ++ b ≠ t := by
  intro he
  apply h
  rw [← he]
  have hd : (a ++ b).data = a.data ++ b.data := by
    cases a
    cases b
    rfl
  rw [hd, List.take_left]

theorem tok1_ne_ns (b : String) :
    "--set=service.enabled=false" ≠ "--namespace=" ++ b :=
  Ne.symm (append_take_ne _ _ _ (by decide))

theorem tok1_ne_an (b : String) :
    "--set=service.enabled=false" ≠ "--set=app.name=" ++ b :=
  Ne.symm (append_take_ne _ _ _ (by decide))

theorem tok1_ne_av (b : String) :
    "--set=service.enabled=false" ≠ "--set=app.version=" ++ b :=
  Ne.symm (append_take_ne _ _ _ (by decide))

theorem tok1_ne_ver (b : String) :
    "--set=service.enabled=false" ≠ "--version=" ++ b :=
  Ne.symm (append_take_ne _ _ _ (by decide))

theorem tok1_ne_to (b : String) :
    "--set=service.enabled=false" ≠ "--timeout=" ++ b :=
  Ne.symm (append_take_ne _ _ _ (by decide))

theorem tok1_ne_kc (b : String) :
    "--set=service.enabled=false" ≠ "--kube-context=" ++ b :=
  Ne.symm (append_take_ne _ _ _ (by decide))

theorem tok1_ne_kt (b : String) :
    "--set=service.enabled=false" ≠ "--kube-token=" ++ b :=
  Ne.symm (append_take_ne _ _ _ (by decide))

theorem vals_ne_tok1 (b : String) :
    "--values=" ++ b ≠ "--set=service.enabled=false" :=
  append_take_ne _ _ _ (by decide)

theorem tok2_ne_ns (b : String) :
    "--set=ingress.enabled=false" ≠ "--namespace=" ++ b :=
  Ne.symm (append_take_ne _ _ _ (by decide))

theorem tok2_ne_an (b : String) :
    "--set=ingress.enabled=false" ≠ "--set=app.name=" ++ b :=
  Ne.symm (append_take_ne _ _ _ (by decide))

theorem tok2_ne_av (b : String) :
    "--set=ingress.enabled=false" ≠ "--set=app.version=" ++ b :=
  Ne.symm (append_take_ne _ _ _ (by decide))

theorem tok2_ne_ver (b : String) :
    "--set=ingress.enabled=false" ≠ "--version=" ++ b :=
  Ne.symm (append_take_ne _ _ _ (by decide))

theorem tok2_ne_to (b : String) :
    "--set=ingress.enabled=false" ≠ "--timeout=" ++ b :=
  Ne.symm (append_take_ne _ _ _ (by decide))

theorem tok2_ne_kc (b : String) :
    "--set=ingress.enabled=false" ≠ "--kube-context=" ++ b :=
  Ne.symm (append_take_ne _ _ _ (by decide))

theorem tok2_ne_kt (b : String) :
    "--set=ingress.enabled=false" ≠ "--kube-token=" ++ b :=
  Ne.symm (append_take_ne _ _ _ (by decide))

theorem vals_ne_tok2 (b : String) :
    "--values=" ++ b ≠ "--set=ingress.enabled=false" :=
  append_take_ne _ _ _ (by decide)

/-- Claim C6 (amended): provided neither the release name nor the chart
reference is itself literally one of the two canary flag strings, the
synthesized upgrade command contains both canary flags when the resolved
track is "canary", and neither flag for any other track.  (The release
and chart tokens are placed in the command verbatim, so a degenerate
name equal to a flag string would make the flag appear on a non-canary
track — see the counterexample.) -/
theorem upgradeArgs_canary_spec (p : DeployParams)
    (h1 : p.release ≠ "--set=service.enabled=false")
    (h2 : p.release ≠ "--set=ingress.enabled=false")
    (h3 : p.chart ≠ "--set=service.enabled=false")
    (h4 : p.chart ≠ "--set=ingress.enabled=false") :
    (p.track = "canary" →
      "--set=service.enabled=false" ∈ upgradeArgs p ∧
      "--set=ingress.enabled=false" ∈ upgradeArgs p) ∧
    (p.track ≠ "canary" →
      "--set=service.enabled=false" ∉ upgradeArgs p ∧
      "--set=ingress.enabled=false" ∉ upgradeArgs p) := by
  constructor
  · intro hc
    constructor <;>
    · simp only [upgradeArgs, mem_if_push, List.mem_append, List.mem_cons,
        List.mem_singleton, List.mem_map, List.not_mem_nil, false_or, or_false]
      simp [hc]
  · intro hc
    constructor
    · simp only [upgradeArgs, mem_if_push, List.mem_append, List.mem_cons,
        List.mem_singleton, List.mem_map, List.not_mem_nil, false_or, or_false]
      simp [hc, Ne.symm h1, Ne.symm h3,
        tok1_ne_ns, tok1_ne_an, tok1_ne_av, tok1_ne_ver, tok1_ne_to,
        tok1_ne_kc, tok1_ne_kt, vals_ne_tok1]
    · simp only [upgradeArgs, mem_if_push, List.mem_append, List.mem_cons,
        List.mem_singleton, List.mem_map, List.not_mem_nil, false_or, or_false]
      simp [hc, Ne.symm h2, Ne.symm h4,
        tok2_ne_ns, tok2_ne_an, tok2_ne_av, tok2_ne_ver, tok2_ne_to,
        tok2_ne_kc, tok2_ne_kt, vals_ne_tok2]

theorem upgradeArgs_canary_spec_witness :
    "--set=service.enabled=false" ∈ upgradeArgs canaryParams ∧
    "--set=ingress.enabled=false" ∈ upgradeArgs canaryParams :=
  (upgradeArgs_canary_spec canaryParams (by decide) (by decide) (by decide)
    (by decide)).1 rfl

/-- Claim C6 (counterexample): a stable-track deployment whose release
name and chart reference are the two flag strings themselves yields a
command containing both canary flags even though the track is not
"canary" (the release and chart are inserted into the command
verbatim). -/
theorem upgradeArgs_token_collision_cex :
    collidingParams.track ≠ "canary" ∧
    "--set=service.enabled=false" ∈ upgradeArgs collidingParams ∧
    "--set=ingress.enabled=false" ∈ upgradeArgs collidingParams :=
  ⟨by decide, by decide, by decide⟩
